import Mathlib

/-!
# Bootstrap of the Stripe Terraform provider plugin (main.go)

A shallow embedding of `func main` of package `main`:

* the flag set that `flag.BoolVar` / `flag.Parse` (main.go:20-21) run over the
  argument vector, following `(*FlagSet).parseOne` and `(*FlagSet).Parse` of Go's
  standard package `flag` and `strconv.ParseBool`;
* the construction of `plugin.ServeOpts` (main.go:23-27);
* the dispatch to `plugin.Debug` or `plugin.Serve` (main.go:29-37).

The collaborators `provider.New`, `plugin.Debug` and `plugin.Serve` are parameters
(`Env`).  An execution is the ordered list of calls `main` makes to them (`Event`)
together with the exit status of the process.

Go strings are modelled by `String`; every test `parseOne` makes on a byte
(`'-'`, `'='`) is a test on an ASCII byte, which in UTF-8 only occurs as a
character of its own, so the tests on characters below agree with Go's on bytes.
-/

namespace StripeProvider

/-! ## Package `strconv` and `flag` -/

/-- The function `strconv.ParseBool`: the twelve accepted spellings, `none` for the
syntax error. -/
def parseBool (str : String) : Option Bool :=
  if str = "1" ∨ str = "t" ∨ str = "T" ∨ str = "TRUE" ∨ str = "true" ∨ str = "True" then
    some true
  else if str = "0" ∨ str = "f" ∨ str = "F" ∨ str = "FALSE" ∨ str = "false" ∨ str = "False" then
    some false
  else
    none

/-- The errors `parseOne` can produce for the flag set of `main`, one constructor per
`failf` format (and `flag.ErrHelp`). -/
inductive FlagError where
  /-- Message "bad flag syntax: %s". -/
  | badSyntax (arg : String)
  /-- The value `flag.ErrHelp`, returned for an undefined `-h` or `-help`. -/
  | errHelp
  /-- Message "flag provided but not defined: -%s". -/
  | notDefined (name : String)
  /-- Message "invalid boolean value %q for -%s: %v". -/
  | invalidBoolValue (value name : String)
  /-- Message "invalid boolean flag %s: %v". -/
  | invalidBoolFlag (name : String)
  deriving DecidableEq, Repr

/-- What one round of `parseOne` does with the first remaining argument. -/
inductive ParseOne where
  /-- Returns `(false, nil)` and leaves the argument in place: not a flag. -/
  | nonFlag
  /-- Returns `(false, nil)` after dropping the argument: the terminator `--`. -/
  | terminator
  /-- Returns `(true, nil)` after storing `value` in the variable bound to `debug`. -/
  | seen (value : Bool)
  /-- Returns `(false, err)`. -/
  | failed (err : FlagError)
  deriving DecidableEq, Repr

/-- The body of `(*FlagSet).parseOne` on the first remaining argument `s`, for the flag
set holding the single boolean flag `debug` registered at main.go:20.  The branch for
flags that need a value is absent because the only formal flag is a boolean one. -/
def parseOne (s : String) : ParseOne :=
  match s.toList with
  | [] => .nonFlag
  | [_] => .nonFlag
  | c0 :: c1 :: cs =>
    if c0 ≠ '-' then .nonFlag
    else if c1 = '-' ∧ cs = [] then .terminator
    else
      -- name := s[numMinuses:]
      match (if c1 = '-' then cs else c1 :: cs) with
      | [] => .failed (.badSyntax s)
      | n0 :: ns =>
        if n0 = '-' ∨ n0 = '=' then .failed (.badSyntax s)
        else
          -- the first '=' at an index of at least 1 splits name and value
          let name := String.mk (n0 :: ns.takeWhile (· ≠ '='))
          let value : Option String :=
            match ns.dropWhile (· ≠ '=') with
            | [] => none
            | _ :: v => some (String.mk v)
          if name = "debug" then
            match value with
            | some v =>
              match parseBool v with
              | some b => .seen b
              | none => .failed (.invalidBoolValue v name)
            | none =>
              match parseBool "true" with
              | some b => .seen b
              | none => .failed (.invalidBoolFlag name)
          else if name = "help" ∨ name = "h" then .failed .errHelp
          else .failed (.notDefined name)

/-- The loop of `(*FlagSet).Parse`: `parseOne` is repeated while it reports a flag seen;
the result is the error that stopped it, or the final value of the variable bound to
`debug` with the arguments left over.  `debugMode` is the current value of that
variable. -/
def flagParse : List String → Bool → Except FlagError (Bool × List String)
  | [], debugMode => .ok (debugMode, [])
  | s :: rest, debugMode =>
    match parseOne s with
    | .nonFlag => .ok (debugMode, s :: rest)
    | .terminator => .ok (debugMode, rest)
    | .seen value => flagParse rest value
    | .failed err => .error err

/-- The `ExitOnError` case of `(*FlagSet).Parse`, the handling of `flag.CommandLine`:
`os.Exit(0)` for `ErrHelp`, `os.Exit(2)` for every other error. -/
def exitOnError : FlagError → Nat
  | .errHelp => 0
  | _ => 2

/-! ## The collaborators of `main` -/

/-- The contexts `main` passes on: only `context.Background()`. -/
inductive Context where
  | background
  deriving DecidableEq, Repr

/-- The fields of `plugin.ServeOpts` that `main` sets; `π` is the type of
`plugin.ProviderFunc` values. -/
structure ServeOpts (π : Type) where
  Debug : Bool
  ProviderAddr : String
  ProviderFunc : π
  deriving DecidableEq, Repr

/-- What a call of `plugin.Serve` does as seen from `main`.  Its signature
`func Serve(opts *ServeOpts)` has no result: either it comes back to `main`, which
cannot tell whether the server inside had failed to start (`startupError`), or it ends
the process itself with a status. -/
inductive ServeOutcome where
  | returned (startupError : Option String)
  | exited (status : Nat)
  deriving DecidableEq, Repr

/-- The packages `main` imports, as functions: `provider.New`, `plugin.Debug` (its
result is the `error`, `none` for `nil`) and `plugin.Serve`. -/
structure Env (π : Type) where
  providerNew : String → π
  pluginDebug : Context → String → ServeOpts π → Option String
  pluginServe : ServeOpts π → ServeOutcome

/-- A call made by the bootstrap, with its arguments: the calls of main.go's imports
and, for a `plugin.ProviderFunc` value `f` (what `provider.New` returns), the
invocation `f()`.  The body of `main` has no invocation of such a value, so its
executions never hold a `providerFuncCall`. -/
inductive Event (π : Type) where
  | providerNew (version : String)
  | pluginDebug (ctx : Context) (id : String) (opts : ServeOpts π)
  | pluginServe (opts : ServeOpts π)
  | logFatal (msg : String)
  | providerFuncCall (f : π)
  deriving DecidableEq, Repr

/-- An execution of the process: the calls made, in order, and the exit status. -/
structure Process (π : Type) where
  trace : List (Event π)
  exitStatus : Nat
  deriving DecidableEq, Repr

/-! ## Package `main` -/

/-- The package variable `version` (main.go:15): its initialiser is "dev" and the
linker flag `-X main.version=...` of a build replaces it (`ldflags`, `none` when the
build passes none). -/
def version (ldflags : Option String) : String :=
  match ldflags with
  | some v => v
  | none => "dev"

/-- Lines 23 to 27 of main.go: the options literal. -/
def mkOpts {π : Type} (ldflags : Option String) (env : Env π) (debugMode : Bool) :
    ServeOpts π :=
  ServeOpts.mk debugMode "registry.terraform.io/stripe/stripe"
    (env.providerNew (version ldflags))

/-- Lines 23 to 37 of main.go: `main` from the point where `flag.Parse` has returned
with the variable `debugMode` set.  `log.Fatal` prints and calls `os.Exit(1)`; a
return from `main` ends the process with status 0. -/
def mainAfterParse {π : Type} (ldflags : Option String) (env : Env π) (debugMode : Bool) :
    Process π :=
  let opts := mkOpts ldflags env debugMode
  if debugMode then
    match env.pluginDebug Context.background opts.ProviderAddr opts with
    | some err =>
      ⟨[.providerNew (version ldflags),
        .pluginDebug Context.background opts.ProviderAddr opts, .logFatal err], 1⟩
    | none =>
      ⟨[.providerNew (version ldflags),
        .pluginDebug Context.background opts.ProviderAddr opts], 0⟩
  else
    match env.pluginServe opts with
    | .returned _ => ⟨[.providerNew (version ldflags), .pluginServe opts], 0⟩
    | .exited status => ⟨[.providerNew (version ldflags), .pluginServe opts], status⟩

/-- The function `main` on the argument vector `argv` (the process arguments after the
program name): `flag.BoolVar` gives `debugMode` its default `false`, `flag.Parse`
parses `argv` and ends the process on an error, then the rest of `main` runs. -/
def main {π : Type} (ldflags : Option String) (env : Env π) (argv : List String) :
    Process π :=
  match flagParse argv false with
  | .error err => ⟨[], exitOnError err⟩
  | .ok (debugMode, _) => mainAfterParse ldflags env debugMode

/-! ## Observations on executions -/

/-- The options of a call of `plugin.Debug`. -/
def Event.debugOpts {π : Type} : Event π → Option (ServeOpts π)
  | .pluginDebug _ _ opts => some opts
  | _ => none

/-- The identifier argument of a call of `plugin.Debug`. -/
def Event.debugId {π : Type} : Event π → Option String
  | .pluginDebug _ id _ => some id
  | _ => none

/-- The options of a call of `plugin.Serve`. -/
def Event.serveOpts {π : Type} : Event π → Option (ServeOpts π)
  | .pluginServe opts => some opts
  | _ => none

/-- The argument of a call of `provider.New`. -/
def Event.newArg {π : Type} : Event π → Option String
  | .providerNew v => some v
  | _ => none

/-- The message of a call of `log.Fatal`. -/
def Event.fatalMsg {π : Type} : Event π → Option String
  | .logFatal msg => some msg
  | _ => none

/-- The function invoked by an invocation of a `plugin.ProviderFunc` value. -/
def Event.invoked {π : Type} : Event π → Option π
  | .providerFuncCall f => some f
  | _ => none

/-- The options of every call of `plugin.Debug`, in order. -/
def Process.debugCalls {π : Type} (p : Process π) : List (ServeOpts π) :=
  p.trace.filterMap Event.debugOpts

/-- The identifier arguments of every call of `plugin.Debug`, in order. -/
def Process.debugIds {π : Type} (p : Process π) : List String :=
  p.trace.filterMap Event.debugId

/-- The options of every call of `plugin.Serve`, in order. -/
def Process.serveCalls {π : Type} (p : Process π) : List (ServeOpts π) :=
  p.trace.filterMap Event.serveOpts

/-- The arguments of every call of `provider.New`, in order. -/
def Process.newCalls {π : Type} (p : Process π) : List String :=
  p.trace.filterMap Event.newArg

/-- The messages of every call of `log.Fatal`, in order. -/
def Process.fatalCalls {π : Type} (p : Process π) : List String :=
  p.trace.filterMap Event.fatalMsg

/-- The `plugin.ProviderFunc` values invoked by the bootstrap itself, in order. -/
def Process.funcCalls {π : Type} (p : Process π) : List π :=
  p.trace.filterMap Event.invoked

/-! ## Sample collaborators -/

/-- A handshake that succeeds and a server that shuts down gracefully. -/
def envQuiet : Env String :=
  ⟨fun v => v, fun _ _ _ => none, fun _ => .returned none⟩

/-- A handshake that fails with the error "handshake failed". -/
def envDebugFails : Env String :=
  ⟨fun v => v, fun _ _ _ => some "handshake failed", fun _ => .returned none⟩

/-- A server that fails to start, reports it in its log and comes back to `main`. -/
def envServeFails : Env String :=
  ⟨fun v => v, fun _ _ _ => none, fun _ => .returned (some "listener failed")⟩

/-- A server that ends the process itself with status 1. -/
def envServeExits : Env String :=
  ⟨fun v => v, fun _ _ _ => none, fun _ => .exited 1⟩

/-! ## The four ways through `main` after flag parsing -/

theorem mainAfterParse_debug_error {π : Type} (ldflags : Option String) (env : Env π)
    (err : String)
    (h : env.pluginDebug Context.background "registry.terraform.io/stripe/stripe"
      (mkOpts ldflags env true) = some err) :
    mainAfterParse ldflags env true =
      ⟨[.providerNew (version ldflags),
        .pluginDebug Context.background "registry.terraform.io/stripe/stripe"
          (mkOpts ldflags env true),
        .logFatal err], 1⟩ := by
  have h2 : env.pluginDebug Context.background (mkOpts ldflags env true).ProviderAddr
      (mkOpts ldflags env true) = some err := h
  simp only [mainAfterParse, if_true, h2]
  rfl

theorem mainAfterParse_debug_nil {π : Type} (ldflags : Option String) (env : Env π)
    (h : env.pluginDebug Context.background "registry.terraform.io/stripe/stripe"
      (mkOpts ldflags env true) = none) :
    mainAfterParse ldflags env true =
      ⟨[.providerNew (version ldflags),
        .pluginDebug Context.background "registry.terraform.io/stripe/stripe"
          (mkOpts ldflags env true)], 0⟩ := by
  have h2 : env.pluginDebug Context.background (mkOpts ldflags env true).ProviderAddr
      (mkOpts ldflags env true) = none := h
  simp only [mainAfterParse, if_true, h2]
  rfl

theorem mainAfterParse_serve_returned {π : Type} (ldflags : Option String) (env : Env π)
    (startupError : Option String)
    (h : env.pluginServe (mkOpts ldflags env false) = .returned startupError) :
    mainAfterParse ldflags env false =
      ⟨[.providerNew (version ldflags), .pluginServe (mkOpts ldflags env false)], 0⟩ := by
  simp [mainAfterParse, h]

theorem mainAfterParse_serve_exited {π : Type} (ldflags : Option String) (env : Env π)
    (status : Nat)
    (h : env.pluginServe (mkOpts ldflags env false) = .exited status) :
    mainAfterParse ldflags env false =
      ⟨[.providerNew (version ldflags), .pluginServe (mkOpts ldflags env false)],
        status⟩ := by
  simp [mainAfterParse, h]

/-- The calls of `main` after flag parsing, whatever the collaborators answer: first
`provider.New`, then the startup path chosen by `debugMode`, then `log.Fatal` exactly
when `plugin.Debug` returned an error. -/
theorem mainAfterParse_trace {π : Type} (ldflags : Option String) (env : Env π)
    (debugMode : Bool) :
    (mainAfterParse ldflags env debugMode).trace =
      Event.providerNew (version ldflags) ::
        (if debugMode then
          Event.pluginDebug Context.background "registry.terraform.io/stripe/stripe"
              (mkOpts ldflags env true) ::
            (match env.pluginDebug Context.background
                "registry.terraform.io/stripe/stripe" (mkOpts ldflags env true) with
              | some err => [Event.logFatal err]
              | none => [])
        else [Event.pluginServe (mkOpts ldflags env false)]) := by
  cases debugMode
  · cases h : env.pluginServe (mkOpts ldflags env false) with
    | returned e => simp [mainAfterParse_serve_returned ldflags env e h]
    | exited s => simp [mainAfterParse_serve_exited ldflags env s h]
  · cases h : env.pluginDebug Context.background "registry.terraform.io/stripe/stripe"
        (mkOpts ldflags env true) with
    | none => simp [mainAfterParse_debug_nil ldflags env h]
    | some err => simp [mainAfterParse_debug_error ldflags env err h]

/-- When flag parsing succeeds, `main` is the rest of `main` at the parsed value. -/
theorem main_of_parse_ok {π : Type} (ldflags : Option String) (env : Env π)
    (argv rest : List String) (debugMode : Bool)
    (h : flagParse argv false = .ok (debugMode, rest)) :
    main ldflags env argv = mainAfterParse ldflags env debugMode := by
  simp [main, h]

/-- When flag parsing fails, `main` makes no call and exits as `ExitOnError` says. -/
theorem main_of_parse_error {π : Type} (ldflags : Option String) (env : Env π)
    (argv : List String) (err : FlagError) (h : flagParse argv false = .error err) :
    main ldflags env argv = ⟨[], exitOnError err⟩ := by
  simp [main, h]

/-- Flags that `parseOne` accepts are consumed one by one: parsing a vector that starts
with accepted flags continues at what follows them. -/
theorem flagParse_append_failed (pre : List String) (t : String) (rest : List String)
    (err : FlagError) (hpre : ∀ p ∈ pre, ∃ b, parseOne p = .seen b)
    (ht : parseOne t = .failed err) (debugMode : Bool) :
    flagParse (pre ++ t :: rest) debugMode = .error err := by
  induction pre generalizing debugMode with
  | nil => simp [flagParse, ht]
  | cons p pre ih =>
    obtain ⟨b, hb⟩ := hpre p (List.mem_cons_self p pre)
    have hrest : ∀ q ∈ pre, ∃ b, parseOne q = .seen b :=
      fun q hq => hpre q (List.mem_cons_of_mem p hq)
    simp only [List.cons_append, flagParse, hb]
    exact ih hrest b

theorem takeWhile_ne_append (c : Char) (ns tail : List Char) (h : c ∉ ns)
    (ht : tail = [] ∨ ∃ v, tail = c :: v) :
    (ns ++ tail).takeWhile (· ≠ c) = ns := by
  induction ns with
  | nil =>
    rcases ht with ht | ⟨v, ht⟩ <;> simp [ht]
  | cons a ns ih =>
    have ha : a ≠ c := fun e => h (e ▸ List.mem_cons_self a ns)
    have hns : c ∉ ns := fun e => h (List.mem_cons_of_mem a e)
    simpa [List.takeWhile, ha] using ih hns

/-- What `parseOne` does with an argument whose characters are one or two dashes, a
name that starts with neither a dash nor an equals sign and holds no equals sign, and
then nothing or an equals sign and a value: for a name other than `debug`, `help`
and `h` it fails with "flag provided but not defined". -/
theorem parseOne_notDefined (twoDashes : Bool) (n0 : Char) (ns tail : List Char)
    (h0 : n0 ≠ '-') (h1 : n0 ≠ '=') (hns : '=' ∉ ns)
    (ht : tail = [] ∨ ∃ v, tail = '=' :: v)
    (hd : String.mk (n0 :: ns) ≠ "debug") (hh : String.mk (n0 :: ns) ≠ "help")
    (hh1 : String.mk (n0 :: ns) ≠ "h") :
    parseOne (String.mk ((if twoDashes then ['-', '-'] else ['-']) ++ n0 :: ns ++ tail)) =
      .failed (.notDefined (String.mk (n0 :: ns))) := by
  have htw := takeWhile_ne_append '=' ns tail hns ht
  simp only [ne_eq, decide_not] at htw
  cases twoDashes <;>
    simp [parseOne, String.toList, h0, h1, hd, hh, hh1, htw]

/-- What `parseOne` does with `-debug=v` and `--debug=v` when `strconv.ParseBool`
rejects `v`: it fails with "invalid boolean value". -/
theorem parseOne_invalidBoolValue (twoDashes : Bool) (v : List Char)
    (hv : parseBool (String.mk v) = none) :
    parseOne (String.mk ((if twoDashes then ['-', '-'] else ['-']) ++
        ['d', 'e', 'b', 'u', 'g', '='] ++ v)) =
      .failed (.invalidBoolValue (String.mk v) "debug") := by
  have hname : String.mk ['d', 'e', 'b', 'u', 'g'] = "debug" := rfl
  cases twoDashes <;>
    simp [parseOne, String.toList, List.takeWhile, List.dropWhile, hv, hname]


/-! ## The claims -/

/-- C1. For every value of `debugMode`, `main` invokes exactly one of the two startup
paths: `plugin.Debug` is invoked (once) if and only if `debugMode` is true,
`plugin.Serve` is invoked (once) if and only if `debugMode` is false, the two together
are invoked exactly once, and when `plugin.Debug` returns no error `main` returns
(status 0) with `plugin.Serve` never invoked. -/
theorem exactly_one_startup_path {π : Type} (ldflags : Option String) (env : Env π)
    (debugMode : Bool) :
    ((mainAfterParse ldflags env debugMode).debugCalls ≠ [] ↔ debugMode = true) ∧
    ((mainAfterParse ldflags env debugMode).serveCalls ≠ [] ↔ debugMode = false) ∧
    (mainAfterParse ldflags env debugMode).debugCalls.length +
      (mainAfterParse ldflags env debugMode).serveCalls.length = 1 ∧
    (debugMode = true →
      env.pluginDebug Context.background "registry.terraform.io/stripe/stripe"
        (mkOpts ldflags env true) = none →
      (mainAfterParse ldflags env debugMode).serveCalls = [] ∧
      (mainAfterParse ldflags env debugMode).fatalCalls = [] ∧
      (mainAfterParse ldflags env debugMode).exitStatus = 0) := by
  refine ⟨?_, ?_, ?_, ?_⟩
  · cases debugMode <;>
      simp [Process.debugCalls, mainAfterParse_trace, Event.debugOpts]
  · cases debugMode
    · simp [Process.serveCalls, mainAfterParse_trace, Event.serveOpts]
    · cases h : env.pluginDebug Context.background "registry.terraform.io/stripe/stripe"
          (mkOpts ldflags env true) <;>
        simp [Process.serveCalls, mainAfterParse_trace, Event.serveOpts, h]
  · cases debugMode
    · simp [Process.debugCalls, Process.serveCalls, mainAfterParse_trace,
        Event.debugOpts, Event.serveOpts]
    · cases h : env.pluginDebug Context.background "registry.terraform.io/stripe/stripe"
          (mkOpts ldflags env true) <;>
        simp [Process.debugCalls, Process.serveCalls, mainAfterParse_trace,
          Event.debugOpts, Event.serveOpts, h]
  · intro hd hnil
    subst hd
    rw [mainAfterParse_debug_nil ldflags env hnil]
    simp [Process.serveCalls, Process.fatalCalls, Event.serveOpts, Event.fatalMsg]

/-- Witness for C1: a successful handshake on the debug path. -/
theorem exactly_one_startup_path_witness :
    (mainAfterParse none envQuiet true).serveCalls = [] ∧
    (mainAfterParse none envQuiet true).fatalCalls = [] ∧
    (mainAfterParse none envQuiet true).exitStatus = 0 :=
  (exactly_one_startup_path none envQuiet true).2.2.2 rfl rfl

/-- C2. For every error returned by `plugin.Debug` on the debug path, `main` passes its
message to `log.Fatal`, which is the last thing the process does, the exit status is 1
(non-zero), `plugin.Debug` was invoked once (no retry) and `plugin.Serve` is never
invoked. -/
theorem debug_error_is_fatal {π : Type} (ldflags : Option String) (env : Env π)
    (err : String)
    (h : env.pluginDebug Context.background "registry.terraform.io/stripe/stripe"
      (mkOpts ldflags env true) = some err) :
    (mainAfterParse ldflags env true).fatalCalls = [err] ∧
    (mainAfterParse ldflags env true).trace.getLast? = some (Event.logFatal err) ∧
    (mainAfterParse ldflags env true).exitStatus = 1 ∧
    (mainAfterParse ldflags env true).exitStatus ≠ 0 ∧
    (mainAfterParse ldflags env true).debugCalls.length = 1 ∧
    (mainAfterParse ldflags env true).serveCalls = [] := by
  rw [mainAfterParse_debug_error ldflags env err h]
  simp [Process.fatalCalls, Process.debugCalls, Process.serveCalls, Event.fatalMsg,
    Event.debugOpts, Event.serveOpts]

/-- Witness for C2: the handshake that fails with "handshake failed". -/
theorem debug_error_is_fatal_witness :
    (mainAfterParse none envDebugFails true).fatalCalls = ["handshake failed"] ∧
    (mainAfterParse none envDebugFails true).trace.getLast? =
      some (Event.logFatal "handshake failed") ∧
    (mainAfterParse none envDebugFails true).exitStatus = 1 ∧
    (mainAfterParse none envDebugFails true).exitStatus ≠ 0 ∧
    (mainAfterParse none envDebugFails true).debugCalls.length = 1 ∧
    (mainAfterParse none envDebugFails true).serveCalls = [] :=
  debug_error_is_fatal none envDebugFails "handshake failed" rfl

/-- C3. For every value of `debugMode`, the options handed to the startup path carry
the address registry.terraform.io/stripe/stripe in `ProviderAddr`, and on the debug
path the identifier argument of `plugin.Debug` is that same string (off the debug path
there is no such argument). -/
theorem provider_address_is_constant {π : Type} (ldflags : Option String) (env : Env π)
    (debugMode : Bool) :
    ((mainAfterParse ldflags env debugMode).debugCalls ++
      (mainAfterParse ldflags env debugMode).serveCalls).map ServeOpts.ProviderAddr =
        ["registry.terraform.io/stripe/stripe"] ∧
    (mainAfterParse ldflags env debugMode).debugIds =
      (if debugMode then ["registry.terraform.io/stripe/stripe"] else []) := by
  cases debugMode
  · simp [Process.debugCalls, Process.serveCalls, Process.debugIds, mainAfterParse_trace,
      Event.debugOpts, Event.serveOpts, Event.debugId, mkOpts]
  · cases h : env.pluginDebug Context.background "registry.terraform.io/stripe/stripe"
        (mkOpts ldflags env true) <;>
      simp [Process.debugCalls, Process.serveCalls, Process.debugIds,
        mainAfterParse_trace, Event.debugOpts, Event.serveOpts, Event.debugId, h] <;>
      simp [mkOpts]

/-- C4. With an empty argument vector flag parsing leaves `debugMode` at its default
`false`, and `main` invokes `plugin.Serve` (once, with the options built for
`debugMode = false`) and never `plugin.Debug`. -/
theorem no_flags_serves {π : Type} (ldflags : Option String) (env : Env π) :
    flagParse [] false = .ok (false, []) ∧
    (main ldflags env []).serveCalls = [mkOpts ldflags env false] ∧
    (main ldflags env []).debugCalls = [] := by
  have hp : flagParse [] false = .ok (false, []) := rfl
  rw [main_of_parse_ok ldflags env [] [] false hp]
  simp [Process.debugCalls, Process.serveCalls, mainAfterParse_trace,
    Event.debugOpts, Event.serveOpts, flagParse]

/-- C5. With the single argument `-debug` or `-debug=true` flag parsing yields
`debugMode = true`, and `main` invokes `plugin.Debug` (once, with the options built
for `debugMode = true`) and never `plugin.Serve`. -/
theorem debug_flag_attaches {π : Type} (ldflags : Option String) (env : Env π) :
    flagParse ["-debug"] false = .ok (true, []) ∧
    flagParse ["-debug=true"] false = .ok (true, []) ∧
    (main ldflags env ["-debug"]).debugCalls = [mkOpts ldflags env true] ∧
    (main ldflags env ["-debug"]).serveCalls = [] ∧
    (main ldflags env ["-debug=true"]).debugCalls = [mkOpts ldflags env true] ∧
    (main ldflags env ["-debug=true"]).serveCalls = [] := by
  have h1 : flagParse ["-debug"] false = .ok (true, []) := rfl
  have h2 : flagParse ["-debug=true"] false = .ok (true, []) := rfl
  rw [main_of_parse_ok ldflags env _ _ _ h1, main_of_parse_ok ldflags env _ _ _ h2]
  refine ⟨h1, h2, ?_⟩
  cases h : env.pluginDebug Context.background "registry.terraform.io/stripe/stripe"
      (mkOpts ldflags env true) <;>
    simp [Process.debugCalls, Process.serveCalls, mainAfterParse_trace,
      Event.debugOpts, Event.serveOpts, h]

/-- C6, as stated, fails: `-h` is a flag other than `debug`, and the process exits
with status 0. -/
theorem help_flag_exits_zero :
    parseOne "-h" = .failed .errHelp ∧
    (main none envQuiet ["-h"]).exitStatus = 0 ∧
    (main none envQuiet ["-h"]).trace = [] := by
  refine ⟨by decide, rfl, rfl⟩

/-- C6, amended. For every argument vector in which flag parsing, after any number of
accepted `debug` flags, reaches an argument that `parseOne` rejects, the process ends
during flag parsing and `main` makes no call at all (no `provider.New`, so no options
are built, no `plugin.Serve`, no `plugin.Debug`); the exit status is 2 (non-zero)
unless the rejected argument is the help request `-h` / `-help`, for which it is 0.
The rejected arguments include every flag with a name other than `debug`, `h` and
`help` (`parseOne_notDefined`) and every malformed value for `debug`
(`parseOne_invalidBoolValue`). -/
theorem flag_error_exits_before_serving {π : Type} (ldflags : Option String)
    (env : Env π) (pre : List String) (t : String) (rest : List String) (err : FlagError)
    (hpre : ∀ p ∈ pre, ∃ b, parseOne p = .seen b) (ht : parseOne t = .failed err) :
    (main ldflags env (pre ++ t :: rest)).trace = [] ∧
    (main ldflags env (pre ++ t :: rest)).newCalls = [] ∧
    (main ldflags env (pre ++ t :: rest)).serveCalls = [] ∧
    (main ldflags env (pre ++ t :: rest)).debugCalls = [] ∧
    (err ≠ .errHelp → (main ldflags env (pre ++ t :: rest)).exitStatus = 2) ∧
    (err = .errHelp → (main ldflags env (pre ++ t :: rest)).exitStatus = 0) := by
  rw [main_of_parse_error ldflags env _ err (flagParse_append_failed pre t rest err hpre ht false)]
  refine ⟨rfl, rfl, rfl, rfl, ?_, ?_⟩
  · intro hne
    cases err <;> first | rfl | exact absurd rfl hne
  · intro he
    subst he
    rfl

/-- Witness for C6: `-debug -verbose x` stops at the undefined flag `-verbose`. -/
theorem flag_error_exits_before_serving_witness :
    (main none envQuiet (["-debug"] ++ "-verbose" :: ["x"])).trace = [] ∧
    (main none envQuiet (["-debug"] ++ "-verbose" :: ["x"])).exitStatus = 2 :=
  have h := flag_error_exits_before_serving none envQuiet ["-debug"] "-verbose" ["x"]
    (.notDefined "verbose") (by decide) (by decide)
  ⟨h.1, h.2.2.2.2.1 (by decide)⟩

/-- C7, as stated, fails: a server that fails to start and comes back from
`plugin.Serve` leaves the process with status 0, and so does the flag-parsing error
`ErrHelp` raised for `-help`. -/
theorem start_failure_with_status_zero :
    envServeFails.pluginServe (mkOpts none envServeFails false) =
      .returned (some "listener failed") ∧
    (main none envServeFails []).serveCalls = [mkOpts none envServeFails false] ∧
    (main none envServeFails []).exitStatus = 0 ∧
    flagParse ["-help"] false = .error .errHelp ∧
    (main none envServeFails ["-help"]).exitStatus = 0 := by
  refine ⟨rfl, rfl, rfl, rfl, rfl⟩

/-- C7, amended. The exit status of the process is: 2 when flag parsing fails with any
error but `ErrHelp`, and 0 for `ErrHelp`; on the debug path 1 when `plugin.Debug`
returns an error and 0 when it returns none; on the serving path 0 whenever
`plugin.Serve` comes back to `main`, also after a startup failure inside it, and the
status `plugin.Serve` chose when it ended the process itself. -/
theorem exit_status_table {π : Type} (ldflags : Option String) (env : Env π)
    (argv : List String) :
    (∀ err, flagParse argv false = .error err → err ≠ .errHelp →
      (main ldflags env argv).exitStatus = 2) ∧
    (flagParse argv false = .error .errHelp → (main ldflags env argv).exitStatus = 0) ∧
    (∀ rest err, flagParse argv false = .ok (true, rest) →
      env.pluginDebug Context.background "registry.terraform.io/stripe/stripe"
        (mkOpts ldflags env true) = some err →
      (main ldflags env argv).exitStatus = 1) ∧
    (∀ rest, flagParse argv false = .ok (true, rest) →
      env.pluginDebug Context.background "registry.terraform.io/stripe/stripe"
        (mkOpts ldflags env true) = none →
      (main ldflags env argv).exitStatus = 0) ∧
    (∀ rest startupError, flagParse argv false = .ok (false, rest) →
      env.pluginServe (mkOpts ldflags env false) = .returned startupError →
      (main ldflags env argv).exitStatus = 0) ∧
    (∀ rest status, flagParse argv false = .ok (false, rest) →
      env.pluginServe (mkOpts ldflags env false) = .exited status →
      (main ldflags env argv).exitStatus = status) := by
  refine ⟨?_, ?_, ?_, ?_, ?_, ?_⟩
  · intro err h hne
    rw [main_of_parse_error ldflags env argv err h]
    cases err <;> first | rfl | exact absurd rfl hne
  · intro h
    rw [main_of_parse_error ldflags env argv _ h]
    rfl
  · intro rest err h hd
    rw [main_of_parse_ok ldflags env argv rest true h,
      mainAfterParse_debug_error ldflags env err hd]
  · intro rest h hd
    rw [main_of_parse_ok ldflags env argv rest true h,
      mainAfterParse_debug_nil ldflags env hd]
  · intro rest e h hs
    rw [main_of_parse_ok ldflags env argv rest false h,
      mainAfterParse_serve_returned ldflags env e hs]
  · intro rest st h hs
    rw [main_of_parse_ok ldflags env argv rest false h,
      mainAfterParse_serve_exited ldflags env st hs]

/-- Witness for C7: one execution for each line of the table. -/
theorem exit_status_table_witness :
    (main none envQuiet ["-debug=maybe"]).exitStatus = 2 ∧
    (main none envQuiet ["-help"]).exitStatus = 0 ∧
    (main none envDebugFails ["-debug"]).exitStatus = 1 ∧
    (main none envQuiet ["-debug"]).exitStatus = 0 ∧
    (main none envServeFails []).exitStatus = 0 ∧
    (main none envServeExits []).exitStatus = 1 :=
  ⟨(exit_status_table none envQuiet ["-debug=maybe"]).1
      (.invalidBoolValue "maybe" "debug") rfl (by decide),
    (exit_status_table none envQuiet ["-help"]).2.1 rfl,
    (exit_status_table none envDebugFails ["-debug"]).2.2.1 [] "handshake failed" rfl rfl,
    (exit_status_table none envQuiet ["-debug"]).2.2.2.1 [] rfl rfl,
    (exit_status_table none envServeFails []).2.2.2.2.1 [] (some "listener failed") rfl rfl,
    (exit_status_table none envServeExits []).2.2.2.2.2 [] 1 rfl rfl⟩

/-- C8. When no build overrides the variable `version`, the argument of the one call of
`provider.New` is "dev" for every value of `debugMode`, and the result of that call is
the `ProviderFunc` of the options handed to the startup path. -/
theorem default_version_is_dev {π : Type} (env : Env π) (debugMode : Bool) :
    version none = "dev" ∧
    (mainAfterParse none env debugMode).newCalls = ["dev"] ∧
    ((mainAfterParse none env debugMode).debugCalls ++
      (mainAfterParse none env debugMode).serveCalls).map ServeOpts.ProviderFunc =
        [env.providerNew "dev"] := by
  refine ⟨rfl, ?_, ?_⟩
  · cases debugMode
    · simp [Process.newCalls, mainAfterParse_trace, Event.newArg, version]
    · cases h : env.pluginDebug Context.background "registry.terraform.io/stripe/stripe"
          (mkOpts none env true) <;>
        simp [Process.newCalls, mainAfterParse_trace, Event.newArg, h, version]
  · cases debugMode
    · simp [Process.debugCalls, Process.serveCalls, mainAfterParse_trace,
        Event.debugOpts, Event.serveOpts, mkOpts, version]
    · cases h : env.pluginDebug Context.background "registry.terraform.io/stripe/stripe"
          (mkOpts none env true) <;>
        simp [Process.debugCalls, Process.serveCalls, mainAfterParse_trace,
          Event.debugOpts, Event.serveOpts, h] <;>
        simp [mkOpts, version]

/-- No execution of `main` after flag parsing invokes a `plugin.ProviderFunc` value. -/
theorem mainAfterParse_funcCalls {π : Type} (ldflags : Option String) (env : Env π)
    (debugMode : Bool) : (mainAfterParse ldflags env debugMode).funcCalls = [] := by
  cases debugMode
  · simp [Process.funcCalls, mainAfterParse_trace, Event.invoked]
  · cases h : env.pluginDebug Context.background "registry.terraform.io/stripe/stripe"
        (mkOpts ldflags env true) <;>
      simp [Process.funcCalls, mainAfterParse_trace, Event.invoked, h]

/-- C9, as stated, fails: with no flags `main` itself calls `provider.New`, once, with
"dev", before it invokes `plugin.Serve`. -/
theorem main_calls_provider_new :
    (main none envQuiet []).newCalls = ["dev"] ∧
    (main none envQuiet []).trace.head? = some (Event.providerNew "dev") := by
  refine ⟨rfl, rfl⟩

/-- C9, amended. On every execution that gets past flag parsing `main` calls
`provider.New` exactly once, with the version tag, as its first call (before the
startup path is entered), and places what that call returns in the `ProviderFunc` of
the options handed to `plugin.Debug` or `plugin.Serve`.  It never invokes the
function that call returned: no execution of `main`, on any argument vector, holds an
invocation of a `ProviderFunc` value, and after flag parsing the calls of `main` are
`provider.New`, the one startup call and, after a failed handshake, `log.Fatal`, and
nothing else. -/
theorem provider_new_called_once {π : Type} (ldflags : Option String) (env : Env π)
    (debugMode : Bool) :
    (mainAfterParse ldflags env debugMode).newCalls = [version ldflags] ∧
    (mainAfterParse ldflags env debugMode).trace.head? =
      some (Event.providerNew (version ldflags)) ∧
    ((mainAfterParse ldflags env debugMode).debugCalls ++
      (mainAfterParse ldflags env debugMode).serveCalls).map ServeOpts.ProviderFunc =
        [env.providerNew (version ldflags)] ∧
    (mainAfterParse ldflags env debugMode).funcCalls = [] ∧
    (∀ argv : List String, (main ldflags env argv).funcCalls = []) ∧
    (∀ e ∈ (mainAfterParse ldflags env debugMode).trace,
      e = Event.providerNew (version ldflags) ∨
      e = Event.pluginDebug Context.background "registry.terraform.io/stripe/stripe"
        (mkOpts ldflags env true) ∨
      e = Event.pluginServe (mkOpts ldflags env false) ∨
      ∃ msg, e = Event.logFatal msg) := by
  refine ⟨?_, ?_, ?_, mainAfterParse_funcCalls ldflags env debugMode, ?_, ?_⟩
  · cases debugMode
    · simp [Process.newCalls, mainAfterParse_trace, Event.newArg]
    · cases h : env.pluginDebug Context.background "registry.terraform.io/stripe/stripe"
          (mkOpts ldflags env true) <;>
        simp [Process.newCalls, mainAfterParse_trace, Event.newArg, h]
  · simp [mainAfterParse_trace]
  · cases debugMode
    · simp [Process.debugCalls, Process.serveCalls, mainAfterParse_trace,
        Event.debugOpts, Event.serveOpts, mkOpts]
    · cases h : env.pluginDebug Context.background "registry.terraform.io/stripe/stripe"
          (mkOpts ldflags env true) <;>
        simp [Process.debugCalls, Process.serveCalls, mainAfterParse_trace,
          Event.debugOpts, Event.serveOpts, h] <;>
        simp [mkOpts]
  · intro argv
    cases hp : flagParse argv false with
    | error err => rw [main_of_parse_error ldflags env argv err hp]; rfl
    | ok r =>
      rw [main_of_parse_ok ldflags env argv r.2 r.1 hp]
      exact mainAfterParse_funcCalls ldflags env r.1
  · intro e he
    rw [mainAfterParse_trace] at he
    cases debugMode
    · simp only [Bool.false_eq_true, if_false, List.mem_cons, List.mem_singleton,
        List.not_mem_nil, or_false] at he
      rcases he with he | he <;> simp [he]
    · cases h : env.pluginDebug Context.background "registry.terraform.io/stripe/stripe"
          (mkOpts ldflags env true) with
      | none =>
        simp [h] at he
        rcases he with he | he <;> simp [he]
      | some err =>
        simp [h] at he
        rcases he with he | he | he <;> simp [he]

/-- C10. For every value of `debugMode`, the `Debug` field of the options handed to the
chosen startup path equals `debugMode`; every call of `plugin.Serve` has `Debug` false
and every call of `plugin.Debug` has `Debug` true. -/
theorem debug_field_matches_path {π : Type} (ldflags : Option String) (env : Env π)
    (debugMode : Bool) :
    ((mainAfterParse ldflags env debugMode).debugCalls ++
      (mainAfterParse ldflags env debugMode).serveCalls).map ServeOpts.Debug =
        [debugMode] ∧
    (∀ o ∈ (mainAfterParse ldflags env debugMode).serveCalls, o.Debug = false) ∧
    (∀ o ∈ (mainAfterParse ldflags env debugMode).debugCalls, o.Debug = true) := by
  cases debugMode
  · simp [Process.debugCalls, Process.serveCalls, mainAfterParse_trace,
      Event.debugOpts, Event.serveOpts, mkOpts]
  · cases h : env.pluginDebug Context.background "registry.terraform.io/stripe/stripe"
        (mkOpts ldflags env true) <;>
      simp [Process.debugCalls, Process.serveCalls, mainAfterParse_trace,
        Event.debugOpts, Event.serveOpts, h] <;>
      simp [mkOpts]

end StripeProvider
